import Mathlib

/-!
Verification development for the TrustLedger decentralized-KYC demo.

The embedding below translates the repository's meaningful logic:
* the hash engine (`generateHash` in server.js and demo-simulation.js both
  compute a SHA-256 digest of the raw bytes, hex-encoded with an `0x` prefix);
* the Express route handlers of server.js (`/api/kyc/upload`,
  `/api/kyc/verify-hash`, `/api/kyc/status`, `/api/access/request`);
* the `SimulationService` of demo-simulation.js (registerKYC, requestAccess,
  grantAccess, revokeAccess, verifyKYC);
* the mock workflow of the React front-end (approveKYC, handleAccessControl).

JavaScript `Map`s are modelled as association lists with JS `Map.set`
semantics (replace in place if the key is present, append otherwise), so that
key-uniqueness is a provable invariant rather than a typing artifact.
Nondeterministic inputs of the source (random transaction hashes, wall-clock
timestamps, the outcome of the external pinning service call) are passed as
explicit parameters.
-/

/-! ## Hash engine: SHA-256, bytes as `List Nat` (each < 256) -/

def w32 (n : Nat) : Nat := n % 4294967296

def rotr (n x : Nat) : Nat := w32 ((x >>> n) ||| (x <<< (32 - n)))

def bigSigma0 (x : Nat) : Nat := rotr 2 x ^^^ rotr 13 x ^^^ rotr 22 x

def bigSigma1 (x : Nat) : Nat := rotr 6 x ^^^ rotr 11 x ^^^ rotr 25 x

def smallSigma0 (x : Nat) : Nat := rotr 7 x ^^^ rotr 18 x ^^^ (x >>> 3)

def smallSigma1 (x : Nat) : Nat := rotr 17 x ^^^ rotr 19 x ^^^ (x >>> 10)

def sha256K : List Nat :=
  [1116352408, 1899447441, 3049323471, 3921009573, 961987163, 1508970993,
   2453635748, 2870763221, 3624381080, 310598401, 607225278, 1426881987,
   1925078388, 2162078206, 2614888103, 3248222580, 3835390401, 4022224774,
   264347078, 604807628, 770255983, 1249150122, 1555081692, 1996064986,
   2554220882, 2821834349, 2952996808, 3210313671, 3336571891, 3584528711,
   113926993, 338241895, 666307205, 773529912, 1294757372, 1396182291,
   1695183700, 1986661051, 2177026350, 2456956037, 2730485921, 2820302411,
   3259730800, 3345764771, 3516065817, 3600352804, 4094571909, 275423344,
   430227734, 506948616, 659060556, 883997877, 958139571, 1322822218,
   1537002063, 1747873779, 1955562222, 2024104815, 2227730452, 2361852424,
   2428436474, 2756734187, 3204031479, 3329325298]

def sha256H0 : List Nat :=
  [1779033703, 3144134277, 1013904242, 2773480762,
   1359893119, 2600822924, 528734635, 1541459225]

/-- Fixed-width big-endian byte expansion of a natural number. -/
def natToBytesBE : Nat → Nat → List Nat
  | 0, _ => []
  | k + 1, n => natToBytesBE k (n / 256) ++ [n % 256]

/-- Big-endian recombination of a byte list into a natural number. -/
def bytesToNat (l : List Nat) : Nat := l.foldl (fun a b => a * 256 + b) 0

/-- SHA-256 padding: append 0x80, zero bytes, then the 64-bit bit length. -/
def padMessage (msg : List Nat) : List Nat :=
  msg ++ [0x80] ++ List.replicate ((119 - msg.length % 64) % 64) 0
      ++ natToBytesBE 8 (8 * msg.length)

/-- Group bytes into big-endian 32-bit words. -/
def toWords : List Nat → List Nat
  | b0 :: b1 :: b2 :: b3 :: rest =>
      (((b0 * 256 + b1) * 256 + b2) * 256 + b3) :: toWords rest
  | _ => []

/-- Group 32-bit words into blocks of 16. -/
def toBlocks16 : List Nat → List (List Nat)
  | w0 :: w1 :: w2 :: w3 :: w4 :: w5 :: w6 :: w7 ::
    w8 :: w9 :: w10 :: w11 :: w12 :: w13 :: w14 :: w15 :: rest =>
      [w0, w1, w2, w3, w4, w5, w6, w7, w8, w9, w10, w11, w12, w13, w14, w15]
        :: toBlocks16 rest
  | _ => []

/-- Extend a block of 16 words by `k` further schedule words. -/
def extendW (ws : List Nat) : Nat → List Nat
  | 0 => ws
  | k + 1 =>
    let prev := extendW ws k
    prev ++ [w32 (smallSigma1 (prev.getD (prev.length - 2) 0)
                  + prev.getD (prev.length - 7) 0
                  + smallSigma0 (prev.getD (prev.length - 15) 0)
                  + prev.getD (prev.length - 16) 0)]

def schedule (ws : List Nat) : List Nat := extendW ws 48

/-- One round of the SHA-256 compression function on state [a,b,c,d,e,f,g,h]. -/
def compressStep (k w : Nat) (s : List Nat) : List Nat :=
  match s with
  | [a, b, c, d, e, f, g, h] =>
    let ch := (e &&& f) ^^^ ((e ^^^ 0xffffffff) &&& g)
    let maj := (a &&& b) ^^^ (a &&& c) ^^^ (b &&& c)
    let t1 := w32 (h + bigSigma1 e + ch + k + w)
    let t2 := w32 (bigSigma0 a + maj)
    [w32 (t1 + t2), a, b, c, w32 (d + t1), e, f, g]
  | s => s

/-- Process one 16-word block against the running hash value. -/
def compressBlock (H block : List Nat) : List Nat :=
  let ws := schedule block
  let fin := (List.zip sha256K ws).foldl (fun s kw => compressStep kw.1 kw.2 s) H
  List.zipWith (fun h v => w32 (h + v)) H fin

/-- The eight 32-bit words of the SHA-256 digest of a byte string. -/
def sha256words (msg : List Nat) : List Nat :=
  (toBlocks16 (toWords (padMessage msg))).foldl compressBlock sha256H0

/-- The SHA-256 digest as a single natural number below 2^256. -/
def sha256nat (msg : List Nat) : Nat :=
  (sha256words msg).foldl (fun a w => a * 4294967296 + w % 4294967296) 0

def hexChar (n : Nat) : Char :=
  if n < 10 then Char.ofNat (48 + n) else Char.ofNat (87 + n)

/-- Fixed-width big-endian lowercase hex rendering. -/
def natToHexAux : Nat → Nat → List Char
  | 0, _ => []
  | k + 1, n => natToHexAux k (n / 16) ++ [hexChar (n % 16)]

/-- `crypto.createHash('sha256').update(data).digest('hex')`. -/
def sha256hex (msg : List Nat) : String := String.mk (natToHexAux 64 (sha256nat msg))

/-- `generateHash` of server.js (over the file bytes) and of
demo-simulation.js: the SHA-256 hex digest with an `0x` prefix. -/
def generateHash (msg : List Nat) : String := "0x" ++ sha256hex msg

/-! ## JavaScript `Map` as an association list -/

/-- A JS `Map` keyed by strings: insertion-ordered association list. -/
abbrev Store (α : Type) := List (String × α)

/-- `Map.set`: replace the binding in place if the key exists, else append. -/
def setA {α : Type} : Store α → String → α → Store α
  | [], k, v => [(k, v)]
  | (k1, v1) :: t, k, v =>
      if k1 = k then (k, v) :: t else (k1, v1) :: setA t k v

/-- `Map.get`: the value bound to a key, if any. -/
def lookupA {α : Type} : Store α → String → Option α
  | [], _ => none
  | (k1, v1) :: t, k => if k1 = k then some v1 else lookupA t k

/-! ## server.js: in-memory database and route handlers -/

/-- A KYC metadata record as built by `POST /api/kyc/upload` (server.js). -/
structure KycMetadata where
  userAddress : String
  documentType : String
  hash : String
  ipfsCID : String
  filename : String
  uploadTime : String
  size : Nat
deriving DecidableEq, Repr

/-- An access log entry as built by `POST /api/access/request` (server.js). -/
structure AccessLog where
  requestId : String
  bankAddress : String
  userAddress : String
  requestTime : String
  status : String
deriving DecidableEq, Repr

/-- The server.js in-memory `database` (the `users` map is never written). -/
structure ServerState where
  kycMetadata : Store KycMetadata
  accessLogs : List AccessLog
deriving DecidableEq, Repr

def initialServerState : ServerState := ⟨[], []⟩

/-- A JS string field of a request body: absent (`undefined`) or a string;
`strFalsy` is JS truthiness on such a field (undefined and "" are falsy). -/
def strFalsy : Option String → Bool
  | none => true
  | some s => s == ""

def strVal : Option String → String
  | none => ""
  | some s => s

/-- The uploaded file as seen by the handler (multer has already enforced
size and MIME type, which the spec assigns to an external collaborator). -/
structure UploadFile where
  bytes : List Nat
  originalname : String
deriving DecidableEq, Repr

structure UploadReq where
  file : Option UploadFile
  userAddress : Option String
  documentType : Option String
deriving DecidableEq, Repr

inductive UploadResult
  | validationError (msg : String)
  | serverError (msg : String)
  | ok (hash ipfsCID uploadTime : String)
deriving DecidableEq, Repr

/-- `uploadToIPFS` (server.js): on any pinning-service failure it rethrows
`Failed to upload to IPFS`; on success it returns the CID. The outcome of the
external HTTP call is the `pin` parameter. -/
def uploadToIPFS (pin : Except String String) : Except String String :=
  match pin with
  | Except.ok cid => Except.ok cid
  | Except.error _ => Except.error "Failed to upload to IPFS"

/-- `POST /api/kyc/upload` (server.js): validate, hash, pin, then store the
metadata record; a thrown pinning error is caught and reported as a 500
before any write to `database.kycMetadata`. -/
def uploadHandler (st : ServerState) (req : UploadReq)
    (pin : Except String String) (now : String) : UploadResult × ServerState :=
  match req.file with
  | none => (UploadResult.validationError "No file uploaded", st)
  | some f =>
    if strFalsy req.userAddress then
      (UploadResult.validationError "User address is required", st)
    else
      let hash := generateHash f.bytes
      match uploadToIPFS pin with
      | Except.error e => (UploadResult.serverError e, st)
      | Except.ok cid =>
        let m : KycMetadata :=
          { userAddress := strVal req.userAddress
            documentType := if strFalsy req.documentType then "identity"
                            else strVal req.documentType
            hash := hash
            ipfsCID := cid
            filename := f.originalname
            uploadTime := now
            size := f.bytes.length }
        (UploadResult.ok hash cid now,
         { st with kycMetadata := setA st.kycMetadata (strVal req.userAddress) m })

structure VerifyReq where
  userAddress : Option String
  hash : Option String
deriving DecidableEq, Repr

inductive VerifyResult
  | validationError (msg : String)
  | noRecord (message : String)
  | compared (verified : Bool)
deriving DecidableEq, Repr

/-- The `verified` flag of the JSON body sent back by the verify-hash route
(`false` both in the no-record response and on a mismatch). -/
def VerifyResult.verifiedFlag : VerifyResult → Bool
  | VerifyResult.compared v => v
  | _ => false

/-- Whether the route answered with an HTTP error status (400/500); the
no-record and compared responses are plain 200 responses. -/
def VerifyResult.isError : VerifyResult → Bool
  | VerifyResult.validationError _ => true
  | _ => false

/-- `POST /api/kyc/verify-hash` (server.js): pure lookup and comparison. -/
def verifyHashHandler (st : ServerState) (req : VerifyReq) :
    VerifyResult × ServerState :=
  if strFalsy req.userAddress || strFalsy req.hash then
    (VerifyResult.validationError "User address and hash are required", st)
  else
    match lookupA st.kycMetadata (strVal req.userAddress) with
    | none => (VerifyResult.noRecord "No KYC data found for this address", st)
    | some m => (VerifyResult.compared (m.hash == strVal req.hash), st)

inductive StatusResult
  | notFound
  | ok (hash documentType uploadTime ipfsCID : String)
deriving DecidableEq, Repr

/-- `GET /api/kyc/status/:userAddress` (server.js): read-only lookup. -/
def statusHandler (st : ServerState) (userAddress : String) : StatusResult :=
  match lookupA st.kycMetadata userAddress with
  | none => StatusResult.notFound
  | some m => StatusResult.ok m.hash m.documentType m.uploadTime m.ipfsCID

structure AccessReq where
  bankAddress : Option String
  userAddress : Option String
  requestId : Option String
deriving DecidableEq, Repr

inductive AccessReqResult
  | validationError (msg : String)
  | ok (log : AccessLog)
deriving DecidableEq, Repr

/-- `POST /api/access/request` (server.js): append a pending access log. -/
def accessRequestHandler (st : ServerState) (req : AccessReq) (now : String) :
    AccessReqResult × ServerState :=
  if strFalsy req.bankAddress || strFalsy req.userAddress || strFalsy req.requestId then
    (AccessReqResult.validationError "Missing required fields", st)
  else
    let log : AccessLog :=
      ⟨strVal req.requestId, strVal req.bankAddress, strVal req.userAddress, now, "pending"⟩
    (AccessReqResult.ok log, { st with accessLogs := st.accessLogs ++ [log] })

/-- One state-relevant request to server.js, with the nondeterministic inputs
(pinning outcome, timestamps) recorded alongside. -/
inductive ServerOp
  | upload (req : UploadReq) (pin : Except String String) (now : String)
  | verifyHash (req : VerifyReq)
  | status (userAddress : String)
  | accessRequest (req : AccessReq) (now : String)
deriving Repr

def applyOp (st : ServerState) : ServerOp → ServerState
  | ServerOp.upload req pin now => (uploadHandler st req pin now).2
  | ServerOp.verifyHash req => (verifyHashHandler st req).2
  | ServerOp.status _ => st
  | ServerOp.accessRequest req now => (accessRequestHandler st req now).2

/-- The server state after a sequence of requests from process start. -/
def runOps (ops : List ServerOp) : ServerState :=
  ops.foldl applyOp initialServerState

/-- Each key bound at most once: the at-most-one-record-per-subject shape. -/
def keysUnique {α : Type} (l : Store α) : Prop := (l.map Prod.fst).Nodup

/-! ## demo-simulation.js: `SimulationService` -/

/-- A permission record in `blockchain.accessPermissions`, keyed by the
string `userAddress-bankAddress`. -/
structure SimPermission where
  requestId : String
  status : String
  requestedAt : String
  approvedAt : Option String
  revokedAt : Option String
  txHash : Option String
  revokeTxHash : Option String
deriving DecidableEq, Repr

/-- A user entry in `blockchain.users` (registerKYC / verifyKYC). -/
structure SimUser where
  kycHash : String
  status : String
  registeredAt : String
  blockNumber : Nat
  txHash : String
  verifiedBy : Option String
  verifiedAt : Option String
deriving DecidableEq, Repr

/-- An entry of `blockchain.transactionHistory`. -/
structure SimTx where
  event : String
  userAddress : String
  bankAddress : Option String
  kycHash : Option String
  txHash : String
  blockNumber : Option Nat
  timestamp : String
deriving DecidableEq, Repr

/-- An entry of `database.accessLogs`. -/
structure SimLog where
  requestId : Option String
  bankAddress : String
  userAddress : String
  action : String
  txHash : Option String
  timestamp : String
deriving DecidableEq, Repr

structure SimState where
  users : Store SimUser
  accessPermissions : Store SimPermission
  transactionHistory : List SimTx
  accessLogs : List SimLog
deriving DecidableEq, Repr

def initialSimState : SimState := ⟨[], [], [], []⟩

/-- The permission key used throughout the repo: `userAddress-bankAddress`. -/
def permKey (userAddress bankAddress : String) : String :=
  userAddress ++ "-" ++ bankAddress

/-- `registerKYC` (demo-simulation.js): clobbers the user's entry with a
fresh pending record and appends a UserRegistered transaction. -/
def SimState.registerKYC (st : SimState) (userAddress kycHash txHash : String)
    (blockNumber : Nat) (now : String) : SimState × String × Nat :=
  ({ st with
      users := setA st.users userAddress
        ⟨kycHash, "pending", now, blockNumber, txHash, none, none⟩
      transactionHistory := st.transactionHistory ++
        [⟨"UserRegistered", userAddress, none, some kycHash, txHash, some blockNumber, now⟩] },
   txHash, blockNumber)

/-- `requestAccess` (demo-simulation.js): unconditionally clobbers the
permission for the pair with a fresh pending record and logs the request.
`requestId` stands for the random `generateTxHash()` value. -/
def SimState.requestAccess (st : SimState) (bankAddress userAddress requestId now : String) :
    SimState × String :=
  let key := permKey userAddress bankAddress
  ({ st with
      accessPermissions := setA st.accessPermissions key
        ⟨requestId, "pending", now, none, none, none, none⟩
      accessLogs := st.accessLogs ++
        [⟨some requestId, bankAddress, userAddress, "access_requested", none, now⟩] },
   requestId)

/-- `grantAccess` (demo-simulation.js): mutates the permission to approved
only when one exists, but appends the AccessGranted transaction and access
log and returns the transaction hash unconditionally. -/
def SimState.grantAccess (st : SimState) (userAddress bankAddress txHash now : String) :
    SimState × String :=
  let key := permKey userAddress bankAddress
  let perms :=
    match lookupA st.accessPermissions key with
    | some p => setA st.accessPermissions key
        { p with status := "approved", approvedAt := some now, txHash := some txHash }
    | none => st.accessPermissions
  ({ st with
      accessPermissions := perms
      transactionHistory := st.transactionHistory ++
        [⟨"AccessGranted", userAddress, some bankAddress, none, txHash, none, now⟩]
      accessLogs := st.accessLogs ++
        [⟨none, bankAddress, userAddress, "access_granted", some txHash, now⟩] },
   txHash)

/-- `revokeAccess` (demo-simulation.js): same shape as grantAccess with
status revoked and the `revokedAt`/`revokeTxHash` fields. -/
def SimState.revokeAccess (st : SimState) (userAddress bankAddress txHash now : String) :
    SimState × String :=
  let key := permKey userAddress bankAddress
  let perms :=
    match lookupA st.accessPermissions key with
    | some p => setA st.accessPermissions key
        { p with status := "revoked", revokedAt := some now, revokeTxHash := some txHash }
    | none => st.accessPermissions
  ({ st with
      accessPermissions := perms
      transactionHistory := st.transactionHistory ++
        [⟨"AccessRevoked", userAddress, some bankAddress, none, txHash, none, now⟩]
      accessLogs := st.accessLogs ++
        [⟨none, bankAddress, userAddress, "access_revoked", some txHash, now⟩] },
   txHash)

inductive VerifyKycOutcome
  | denied (reason : String)
  | verifiedOk (txHash verifiedAt : String)
deriving DecidableEq, Repr

/-- `verifyKYC` (demo-simulation.js): requires an approved permission and a
registered user; on a hash match it mutates the user's status to verified
and appends a KYCVerified transaction and access log, otherwise it returns
without touching the state. -/
def SimState.verifyKYC (st : SimState) (bankAddress userAddress expectedHash txHash now : String) :
    VerifyKycOutcome × SimState :=
  let key := permKey userAddress bankAddress
  match lookupA st.accessPermissions key with
  | none => (VerifyKycOutcome.denied "No access permission", st)
  | some p =>
    if p.status ≠ "approved" then (VerifyKycOutcome.denied "No access permission", st)
    else
      match lookupA st.users userAddress with
      | none => (VerifyKycOutcome.denied "User not registered", st)
      | some u =>
        if u.kycHash = expectedHash then
          (VerifyKycOutcome.verifiedOk txHash now,
           { st with
              users := setA st.users userAddress
                { u with status := "verified", verifiedBy := some bankAddress,
                         verifiedAt := some now }
              transactionHistory := st.transactionHistory ++
                [⟨"KYCVerified", userAddress, some bankAddress, none, txHash, none, now⟩]
              accessLogs := st.accessLogs ++
                [⟨none, bankAddress, userAddress, "kyc_verified", some txHash, now⟩] })
        else (VerifyKycOutcome.denied "Hash mismatch", st)

/-! ## React front-end mock (the unnamed source file) -/

structure FrontUser where
  kycHash : String
  status : String
  documentType : String
  registeredAt : String
  txHash : String
  blockNumber : Nat
  ipfsCID : String
  verifiedBy : Option String
  verifiedAt : Option String
deriving DecidableEq, Repr

structure FrontPermission where
  status : String
  requestedAt : String
  approvedAt : Option String
  revokedAt : Option String
  txHash : Option String
deriving DecidableEq, Repr

structure FrontTx where
  type : String
  user : String
  bank : Option String
  hash : Option String
  txHash : String
  blockNumber : Option Nat
  timestamp : String
deriving DecidableEq, Repr

structure FrontState where
  users : Store FrontUser
  accessPermissions : Store FrontPermission
  transactions : List FrontTx
deriving DecidableEq, Repr

/-- `approveKYC` of the front-end mock: `wallet` is whoever is signed in;
the user record, if present, is marked verified with no permission check. -/
def approveKYC (st : FrontState) (wallet userAddress txHash now : String) : FrontState :=
  match lookupA st.users userAddress with
  | none => st
  | some u =>
    { st with
        users := setA st.users userAddress
          { u with status := "verified", verifiedBy := some wallet, verifiedAt := some now }
        transactions := st.transactions ++
          [⟨"KYCVerified", userAddress, some wallet, none, txHash, none, now⟩] }

inductive AccessAction
  | grant
  | revoke
deriving DecidableEq, Repr

/-- `handleAccessControl` of the front-end mock: mutates the permission and
appends a transaction only when a permission exists; otherwise it does
nothing at all (no error, no event). -/
def handleAccessControl (st : FrontState) (wallet bankAddr : String)
    (action : AccessAction) (txHash now : String) : FrontState :=
  let key := permKey wallet bankAddr
  match lookupA st.accessPermissions key with
  | none => st
  | some p =>
    let p1 :=
      match action with
      | AccessAction.grant =>
          { p with status := "approved", approvedAt := some now, txHash := some txHash }
      | AccessAction.revoke =>
          { p with status := "revoked", revokedAt := some now, txHash := some txHash }
    let eventName :=
      match action with
      | AccessAction.grant => "AccessGranted"
      | AccessAction.revoke => "AccessRevoked"
    { st with
        accessPermissions := setA st.accessPermissions key p1
        transactions := st.transactions ++
          [⟨eventName, wallet, some bankAddr, none, txHash, none, now⟩] }

/-! ## Store lemmas -/

theorem lookupA_setA_self {α : Type} (l : Store α) (k : String) (v : α) :
    lookupA (setA l k v) k = some v := by
  induction l with
  | nil => simp [setA, lookupA]
  | cons h t ih =>
    obtain ⟨k1, v1⟩ := h
    by_cases hk : k1 = k
    · simp [setA, hk, lookupA]
    · simp [setA, hk, lookupA, ih]

theorem mem_keys_setA {α : Type} (l : Store α) (k x : String) (v : α)
    (hx : x ∈ (setA l k v).map Prod.fst) : x ∈ l.map Prod.fst ∨ x = k := by
  induction l with
  | nil => simpa [setA] using hx
  | cons h t ih =>
    obtain ⟨k1, v1⟩ := h
    by_cases hk : k1 = k
    · simp only [setA, if_pos hk] at hx
      rcases List.mem_map.mp hx with ⟨p, hp, hpx⟩
      rcases List.mem_cons.mp hp with rfl | hp
      · exact Or.inr hpx.symm
      · exact Or.inl (List.mem_map.mpr ⟨p, List.mem_cons_of_mem _ hp, hpx⟩)
    · simp only [setA, if_neg hk, List.map_cons, List.mem_cons] at hx ⊢
      rcases hx with rfl | hx
      · exact Or.inl (Or.inl rfl)
      · rcases ih hx with h1 | h1
        · exact Or.inl (Or.inr h1)
        · exact Or.inr h1

theorem keysUnique_setA {α : Type} (l : Store α) (k : String) (v : α)
    (hl : keysUnique l) : keysUnique (setA l k v) := by
  induction l with
  | nil => simp [keysUnique, setA]
  | cons h t ih =>
    obtain ⟨k1, v1⟩ := h
    simp only [keysUnique, List.map_cons, List.nodup_cons] at hl
    by_cases hk : k1 = k
    · subst hk
      simpa [keysUnique, setA] using hl
    · have ht := ih hl.2
      simp only [keysUnique, setA, if_neg hk, List.map_cons, List.nodup_cons]
      refine ⟨fun hmem => ?_, ht⟩
      rcases mem_keys_setA t k k1 v hmem with h1 | h1
      · exact hl.1 h1
      · exact hk h1

/-! ## Hash engine lemmas -/

theorem compressStep_length (k w : Nat) (s : List Nat) :
    (compressStep k w s).length = s.length := by
  unfold compressStep
  split
  · simp
  · rfl

theorem foldl_compressStep_length (l : List (Nat × Nat)) :
    ∀ s : List Nat,
      (l.foldl (fun s kw => compressStep kw.1 kw.2 s) s).length = s.length := by
  induction l with
  | nil => intro s; rfl
  | cons h t ih =>
    intro s
    rw [List.foldl_cons, ih, compressStep_length]

theorem compressBlock_length (H block : List Nat) :
    (compressBlock H block).length = H.length := by
  unfold compressBlock
  rw [List.length_zipWith, foldl_compressStep_length, Nat.min_self]

theorem foldl_compressBlock_length (bs : List (List Nat)) :
    ∀ H : List Nat, (bs.foldl compressBlock H).length = H.length := by
  induction bs with
  | nil => intro H; rfl
  | cons b t ih =>
    intro H
    rw [List.foldl_cons, ih, compressBlock_length]

theorem sha256words_length (msg : List Nat) : (sha256words msg).length = 8 := by
  unfold sha256words
  rw [foldl_compressBlock_length]
  rfl

theorem foldl_digest_lt (ws : List Nat) :
    ∀ a B : Nat, a < B →
      ws.foldl (fun a w => a * 4294967296 + w % 4294967296) a < B * 4294967296 ^ ws.length := by
  induction ws with
  | nil => intro a B h; simpa using h
  | cons w t ih =>
    intro a B h
    rw [List.foldl_cons]
    have h1 : a * 4294967296 + w % 4294967296 < B * 4294967296 := by
      have hw : w % 4294967296 < 4294967296 := Nat.mod_lt _ (by norm_num)
      calc a * 4294967296 + w % 4294967296
          < a * 4294967296 + 4294967296 := by omega
        _ = (a + 1) * 4294967296 := by ring
        _ ≤ B * 4294967296 := Nat.mul_le_mul_right _ (by omega)
    have := ih _ _ h1
    calc (t.foldl (fun a w => a * 4294967296 + w % 4294967296)
            (a * 4294967296 + w % 4294967296))
        < B * 4294967296 * 4294967296 ^ t.length := this
      _ = B * 4294967296 ^ (w :: t).length := by
          rw [List.length_cons, pow_succ]; ring

theorem sha256nat_lt (msg : List Nat) : sha256nat msg < 2 ^ 256 := by
  have h := foldl_digest_lt (sha256words msg) 0 1 Nat.zero_lt_one
  rw [sha256words_length] at h
  unfold sha256nat
  calc (sha256words msg).foldl (fun a w => a * 4294967296 + w % 4294967296) 0
      < 1 * 4294967296 ^ 8 := h
    _ = 2 ^ 256 := by norm_num

theorem natToBytesBE_mem_lt (k : Nat) : ∀ (n : Nat), ∀ x ∈ natToBytesBE k n, x < 256 := by
  induction k with
  | zero => intro n x hx; simp [natToBytesBE] at hx
  | succ k ih =>
    intro n x hx
    simp only [natToBytesBE, List.mem_append, List.mem_singleton] at hx
    rcases hx with hx | rfl
    · exact ih _ x hx
    · exact Nat.mod_lt _ (by norm_num)

theorem bytesToNat_append_one (l : List Nat) (b : Nat) :
    bytesToNat (l ++ [b]) = bytesToNat l * 256 + b := by
  simp [bytesToNat, List.foldl_append]

theorem bytesToNat_natToBytesBE (k : Nat) :
    ∀ n : Nat, n < 256 ^ k → bytesToNat (natToBytesBE k n) = n := by
  induction k with
  | zero =>
    intro n hn
    interval_cases n
    rfl
  | succ k ih =>
    intro n hn
    have hdiv : n / 256 < 256 ^ k := by
      rw [Nat.div_lt_iff_lt_mul (by norm_num : (0 : Nat) < 256)]
      calc n < 256 ^ (k + 1) := hn
        _ = 256 ^ k * 256 := pow_succ 256 k
    rw [natToBytesBE, bytesToNat_append_one, ih _ hdiv, Nat.div_add_mod']

theorem generateHash_ne_empty (msg : List Nat) : generateHash msg ≠ "" := by
  intro h
  have h2 := congrArg String.length h
  rw [generateHash, String.length_append] at h2
  have h3 : ("0x" : String).length = 2 := rfl
  have h4 : ("" : String).length = 0 := rfl
  omega

theorem strFalsy_some_false (s : String) (h : s ≠ "") : strFalsy (some s) = false := by
  simp [strFalsy, h]

/-- SHA-256 maps the 2^264 inputs of 33 bytes into 2^256 possible digests,
so two distinct byte strings share a fingerprint. -/
theorem sha256_collision :
    ∃ b b1 : List Nat, (∀ x ∈ b, x < 256) ∧ (∀ x ∈ b1, x < 256) ∧ b ≠ b1 ∧
      generateHash b = generateHash b1 := by
  obtain ⟨i, j, hij, hfeq⟩ :=
    Fintype.exists_ne_map_eq_of_card_lt
      (fun n : Fin (2 ^ 264) =>
        (⟨sha256nat (natToBytesBE 33 n.val), sha256nat_lt _⟩ : Fin (2 ^ 256)))
      (by
        simp only [Fintype.card_fin]
        exact Nat.pow_lt_pow_right one_lt_two (by norm_num))
  have hval : sha256nat (natToBytesBE 33 i.val) = sha256nat (natToBytesBE 33 j.val) := by
    simpa using congrArg Fin.val hfeq
  have h256 : (256 : Nat) ^ 33 = 2 ^ 264 := by
    rw [show (256 : Nat) = 2 ^ 8 by norm_num, ← pow_mul]
  refine ⟨natToBytesBE 33 i.val, natToBytesBE 33 j.val,
    natToBytesBE_mem_lt 33 i.val, natToBytesBE_mem_lt 33 j.val, ?_, ?_⟩
  · intro he
    apply hij
    have hi : i.val < 256 ^ 33 := by rw [h256]; exact i.isLt
    have hj : j.val < 256 ^ 33 := by rw [h256]; exact j.isLt
    have hv := congrArg bytesToNat he
    rw [bytesToNat_natToBytesBE 33 i.val hi, bytesToNat_natToBytesBE 33 j.val hj] at hv
    exact Fin.ext hv
  · unfold generateHash sha256hex
    rw [hval]

/-! ## Claim C2 -/

/-- C2: if the content-store call made during Upload fails, no KYC record is
written for the subject — the whole server state is unchanged, a subsequent
Status observes exactly what it observed before, and the operation reports
an error (the rethrown `Failed to upload to IPFS`, answered as a 500). -/
theorem upload_atomic_on_pin_failure (st : ServerState) (f : UploadFile)
    (subject dt now e : String) (hs : subject ≠ "") :
    (uploadHandler st ⟨some f, some subject, some dt⟩ (Except.error e) now).1
      = UploadResult.serverError "Failed to upload to IPFS" ∧
    (uploadHandler st ⟨some f, some subject, some dt⟩ (Except.error e) now).2 = st ∧
    statusHandler (uploadHandler st ⟨some f, some subject, some dt⟩ (Except.error e) now).2 subject
      = statusHandler st subject := by
  have hfs := strFalsy_some_false subject hs
  refine ⟨?_, ?_, ?_⟩ <;> simp [uploadHandler, uploadToIPFS, hfs]

theorem upload_atomic_on_pin_failure_witness :
    ("0xabc" : String) ≠ "" ∧
    ((uploadHandler initialServerState ⟨some ⟨[1, 2], "a.pdf"⟩, some "0xabc", some "pan"⟩
        (Except.error "network down") "t0").1
      = UploadResult.serverError "Failed to upload to IPFS" ∧
    (uploadHandler initialServerState ⟨some ⟨[1, 2], "a.pdf"⟩, some "0xabc", some "pan"⟩
        (Except.error "network down") "t0").2 = initialServerState ∧
    statusHandler (uploadHandler initialServerState ⟨some ⟨[1, 2], "a.pdf"⟩, some "0xabc", some "pan"⟩
        (Except.error "network down") "t0").2 "0xabc"
      = statusHandler initialServerState "0xabc") :=
  ⟨by decide,
   upload_atomic_on_pin_failure initialServerState ⟨[1, 2], "a.pdf"⟩ "0xabc" "pan" "t0"
     "network down" (by decide)⟩

/-! ## Claim C6 -/

/-- C6: `requestAccess` creates or resets the permission for the pair to
`pending` whatever the prior state was (the state `st` is arbitrary, so this
covers absent, pending, approved and revoked permissions), and in particular
a requestAccess right after revokeAccess leaves the permission pending. -/
theorem requestAccess_resets_pending (st : SimState)
    (bank user requestId now rtx rnow : String) :
    lookupA ((st.requestAccess bank user requestId now).1).accessPermissions
        (permKey user bank)
      = some ⟨requestId, "pending", now, none, none, none, none⟩ ∧
    lookupA ((((st.revokeAccess user bank rtx rnow).1).requestAccess bank user requestId
        now).1).accessPermissions (permKey user bank)
      = some ⟨requestId, "pending", now, none, none, none, none⟩ := by
  constructor <;> simp [SimState.requestAccess, lookupA_setA_self]

/-! ## Claim C7 -/

/-- C7: `approveKYC` of the front-end mock marks any existing record as
verified and stamps verifiedBy/verifiedAt with the caller's wallet, for an
arbitrary caller and an arbitrary permission store: no access-permission
check guards the transition. -/
theorem approveKYC_no_permission_check (st : FrontState)
    (wallet userAddress txHash now : String) (u : FrontUser)
    (hu : lookupA st.users userAddress = some u) :
    lookupA (approveKYC st wallet userAddress txHash now).users userAddress
      = some { u with status := "verified", verifiedBy := some wallet,
                      verifiedAt := some now } ∧
    (approveKYC st wallet userAddress txHash now).transactions
      = st.transactions ++ [⟨"KYCVerified", userAddress, some wallet, none, txHash, none, now⟩] := by
  constructor <;> simp [approveKYC, hu, lookupA_setA_self]

theorem approveKYC_no_permission_check_witness :
    lookupA (FrontState.users
        ⟨[("u1", ⟨"0xh", "pending", "aadhaar", "t0", "0xt", 7, "QmC", none, none⟩)], [], []⟩) "u1"
      = some ⟨"0xh", "pending", "aadhaar", "t0", "0xt", 7, "QmC", none, none⟩ ∧
    (lookupA (approveKYC ⟨[("u1", ⟨"0xh", "pending", "aadhaar", "t0", "0xt", 7, "QmC", none, none⟩)],
          [], []⟩ "0xbank" "u1" "0xt2" "t1").users "u1"
      = some ⟨"0xh", "verified", "aadhaar", "t0", "0xt", 7, "QmC", some "0xbank", some "t1"⟩ ∧
    (approveKYC ⟨[("u1", ⟨"0xh", "pending", "aadhaar", "t0", "0xt", 7, "QmC", none, none⟩)],
          [], []⟩ "0xbank" "u1" "0xt2" "t1").transactions
      = [⟨"KYCVerified", "u1", some "0xbank", none, "0xt2", none, "t1"⟩]) :=
  ⟨rfl,
   approveKYC_no_permission_check
     ⟨[("u1", ⟨"0xh", "pending", "aadhaar", "t0", "0xt", 7, "QmC", none, none⟩)], [], []⟩
     "0xbank" "u1" "0xt2" "t1" ⟨"0xh", "pending", "aadhaar", "t0", "0xt", 7, "QmC", none, none⟩ rfl⟩

/-! ## Claim C9 -/

/-- C9: the hash engine is deterministic — equal byte inputs always yield
equal fingerprints (repeated calls are applications to the same bytes). -/
theorem generateHash_deterministic (b1 b2 : List Nat) (h : b1 = b2) :
    generateHash b1 = generateHash b2 :=
  congrArg generateHash h

theorem generateHash_deterministic_witness :
    generateHash [1, 2, 3] = generateHash [1, 2, 3] :=
  generateHash_deterministic [1, 2, 3] [1, 2, 3] rfl

/-! ## Claim C10 -/

/-- C10: an upload whose caller supplies no documentType (absent field or
empty string, both falsy in JS) stores a record with documentType
`identity`; every other field of the stored record is built from the
supplied inputs, and the response reports hash, CID and upload time. -/
theorem upload_default_documentType (st : ServerState) (f : UploadFile)
    (subject now cid : String) (dt : Option String) (hs : subject ≠ "")
    (hdt : dt = none ∨ dt = some "") :
    lookupA ((uploadHandler st ⟨some f, some subject, dt⟩ (Except.ok cid) now).2).kycMetadata
        subject
      = some ⟨subject, "identity", generateHash f.bytes, cid, f.originalname, now,
              f.bytes.length⟩ ∧
    (uploadHandler st ⟨some f, some subject, dt⟩ (Except.ok cid) now).1
      = UploadResult.ok (generateHash f.bytes) cid now := by
  have hfs := strFalsy_some_false subject hs
  have hdt2 : strFalsy dt = true := by rcases hdt with rfl | rfl <;> simp [strFalsy]
  constructor <;> simp [uploadHandler, uploadToIPFS, hfs, hdt2, strVal, lookupA_setA_self]

theorem upload_default_documentType_witness :
    ("0xabc" : String) ≠ "" ∧ ((none : Option String) = none ∨ (none : Option String) = some "") ∧
    (lookupA ((uploadHandler initialServerState ⟨some ⟨[5], "id.png"⟩, some "0xabc", none⟩
          (Except.ok "QmZ") "t0").2).kycMetadata "0xabc"
      = some ⟨"0xabc", "identity", generateHash [5], "QmZ", "id.png", "t0", [5].length⟩ ∧
    (uploadHandler initialServerState ⟨some ⟨[5], "id.png"⟩, some "0xabc", none⟩
          (Except.ok "QmZ") "t0").1
      = UploadResult.ok (generateHash [5]) "QmZ" "t0") :=
  ⟨by decide, Or.inl rfl,
   upload_default_documentType initialServerState ⟨[5], "id.png"⟩ "0xabc" "t0" "QmZ" none
     (by decide) (Or.inl rfl)⟩

/-! ## Claim C8 -/

theorem keysUnique_applyOp (st : ServerState) (op : ServerOp)
    (h : keysUnique st.kycMetadata) : keysUnique (applyOp st op).kycMetadata := by
  cases op with
  | upload req pin now =>
    obtain ⟨file, ua, dtp⟩ := req
    cases file with
    | none => exact h
    | some f =>
      by_cases hua : strFalsy ua = true
      · simpa [applyOp, uploadHandler, hua] using h
      · rw [Bool.not_eq_true] at hua
        cases pin with
        | ok cid =>
          simpa [applyOp, uploadHandler, uploadToIPFS, hua] using keysUnique_setA _ _ _ h
        | error e => simpa [applyOp, uploadHandler, uploadToIPFS, hua] using h
  | verifyHash req =>
    simp only [applyOp, verifyHashHandler]
    split
    · exact h
    · split <;> exact h
  | status ua => exact h
  | accessRequest req now =>
    simp only [applyOp, accessRequestHandler]
    split
    · exact h
    · exact h

theorem keysUnique_runOpsFrom (ops : List ServerOp) :
    ∀ st : ServerState, keysUnique st.kycMetadata →
      keysUnique (ops.foldl applyOp st).kycMetadata := by
  induction ops with
  | nil => intro st h; exact h
  | cons op t ih => intro st h; exact ih _ (keysUnique_applyOp st op h)

/-- C8: after any sequence of requests from process start, each subject has
at most one KYC record (the store keys stay pairwise distinct), and an
upload for a subject replaces the record bound to that subject with one
built entirely from the inputs of that upload — no field of a previous
record survives. -/
theorem kyc_record_unique_and_upload_overwrites (ops : List ServerOp)
    (st : ServerState) (f : UploadFile) (subject dt now cid : String) (hs : subject ≠ "") :
    keysUnique (runOps ops).kycMetadata ∧
    lookupA ((uploadHandler st ⟨some f, some subject, some dt⟩ (Except.ok cid) now).2).kycMetadata
        subject
      = some ⟨subject, if dt == "" then "identity" else dt, generateHash f.bytes, cid,
              f.originalname, now, f.bytes.length⟩ := by
  constructor
  · exact keysUnique_runOpsFrom ops initialServerState (by simp [initialServerState, keysUnique])
  · have hfs := strFalsy_some_false subject hs
    simp [uploadHandler, uploadToIPFS, hfs, hs, strFalsy, strVal, lookupA_setA_self]

theorem kyc_record_unique_and_upload_overwrites_witness :
    ("0xabc" : String) ≠ "" ∧
    (keysUnique (runOps [ServerOp.upload ⟨some ⟨[9], "x.pdf"⟩, some "0xabc", some "pan"⟩
          (Except.ok "QmQ") "t0"]).kycMetadata ∧
    lookupA ((uploadHandler initialServerState ⟨some ⟨[7, 7], "y.pdf"⟩, some "0xabc", some "pan"⟩
          (Except.ok "QmR") "t1").2).kycMetadata "0xabc"
      = some ⟨"0xabc", if "pan" == "" then "identity" else "pan", generateHash [7, 7], "QmR",
              "y.pdf", "t1", [7, 7].length⟩) :=
  ⟨by decide,
   kyc_record_unique_and_upload_overwrites
     [ServerOp.upload ⟨some ⟨[9], "x.pdf"⟩, some "0xabc", some "pan"⟩ (Except.ok "QmQ") "t0"]
     initialServerState ⟨[7, 7], "y.pdf"⟩ "0xabc" "pan" "t1" "QmR" (by decide)⟩

/-! ## Claim C3 (corrected) -/

/-- C3 counterexample: the verify-hash route does not answer the not-found
response for every supplied hash — for the empty-string hash (a value a
caller can supply, and falsy in JS) it returns a 400 validation error even
though the subject has no record, contradicting `never returns an error
status`. -/
theorem verifyHash_error_status_counterexample :
    lookupA initialServerState.kycMetadata "alice" = none ∧
    (verifyHashHandler initialServerState ⟨some "alice", some ""⟩).1
      = VerifyResult.validationError "User address and hash are required" ∧
    VerifyResult.isError (verifyHashHandler initialServerState ⟨some "alice", some ""⟩).1
      = true := by
  refine ⟨rfl, by decide, by decide⟩

/-- C3 amended: for a subject with no record, VerifyHash with any non-empty
subject and non-empty supplied hash returns the 200 response with
`verified = false` and the not-found message, no error status, and leaves
the state untouched; an empty (or missing) subject or hash instead hits the
400 validation branch. -/
theorem verifyHash_unknown_subject_not_found (st : ServerState) (subject hsh : String)
    (hs : subject ≠ "") (hh : hsh ≠ "")
    (hnone : lookupA st.kycMetadata subject = none) :
    (verifyHashHandler st ⟨some subject, some hsh⟩).1
      = VerifyResult.noRecord "No KYC data found for this address" ∧
    VerifyResult.verifiedFlag (verifyHashHandler st ⟨some subject, some hsh⟩).1 = false ∧
    VerifyResult.isError (verifyHashHandler st ⟨some subject, some hsh⟩).1 = false ∧
    (verifyHashHandler st ⟨some subject, some hsh⟩).2 = st := by
  have h1 := strFalsy_some_false subject hs
  have h2 := strFalsy_some_false hsh hh
  refine ⟨?_, ?_, ?_, ?_⟩ <;>
    simp [verifyHashHandler, h1, h2, strVal, hnone, VerifyResult.verifiedFlag,
          VerifyResult.isError]

theorem verifyHash_unknown_subject_not_found_witness :
    ("alice" : String) ≠ "" ∧ ("0xfeed" : String) ≠ "" ∧
    lookupA initialServerState.kycMetadata "alice" = none ∧
    ((verifyHashHandler initialServerState ⟨some "alice", some "0xfeed"⟩).1
      = VerifyResult.noRecord "No KYC data found for this address" ∧
    VerifyResult.verifiedFlag (verifyHashHandler initialServerState
        ⟨some "alice", some "0xfeed"⟩).1 = false ∧
    VerifyResult.isError (verifyHashHandler initialServerState
        ⟨some "alice", some "0xfeed"⟩).1 = false ∧
    (verifyHashHandler initialServerState ⟨some "alice", some "0xfeed"⟩).2
      = initialServerState) :=
  ⟨by decide, by decide, rfl,
   verifyHash_unknown_subject_not_found initialServerState "alice" "0xfeed"
     (by decide) (by decide) rfl⟩

/-! ## Claim C4 (corrected) -/

/-- C4 counterexample: the `verifyKYC` step of the simulation (one of the
claim's cited VerifyHash implementations) is not a pure comparison — on a
matching hash with an approved permission it mutates the user record and
appends events, so the state after the call differs from the state before. -/
theorem sim_verifyKYC_mutation_counterexample :
    (SimState.verifyKYC
        ⟨[("user1", ⟨"0xh", "pending", "t0", 1, "0xt1", none, none⟩)],
         [(permKey "user1" "bank1", ⟨"0xr1", "approved", "t1", none, none, none, none⟩)],
         [], []⟩
        "bank1" "user1" "0xh" "0xt2" "t2").2
      ≠ (⟨[("user1", ⟨"0xh", "pending", "t0", 1, "0xt1", none, none⟩)],
          [(permKey "user1" "bank1", ⟨"0xr1", "approved", "t1", none, none, none, none⟩)],
          [], []⟩ : SimState) := by
  decide

/-- C4 amended: the backend verify-hash route performs a pure comparison and
never mutates the server state; the simulation's `verifyKYC`, by contrast,
leaves its state unchanged only when it answers a denial (missing or
unapproved permission, unknown user, or hash mismatch), and on a successful
match it updates the record and appends events. -/
theorem verifyHash_no_mutation (st : ServerState) (req : VerifyReq) (sim : SimState)
    (bank user expected tx now reason : String) :
    (verifyHashHandler st req).2 = st ∧
    ((sim.verifyKYC bank user expected tx now).1 = VerifyKycOutcome.denied reason →
      (sim.verifyKYC bank user expected tx now).2 = sim) := by
  constructor
  · simp only [verifyHashHandler]
    split
    · rfl
    · split <;> rfl
  · simp only [SimState.verifyKYC]
    split
    · intro _; rfl
    · split
      · intro _; rfl
      · split
        · intro _; rfl
        · split
          · intro hcontra; simp at hcontra
          · intro _; rfl

theorem verifyHash_no_mutation_witness :
    ((verifyHashHandler initialServerState ⟨some "alice", some "0xfeed"⟩).2
        = initialServerState ∧
    ((initialSimState.verifyKYC "bank1" "user1" "0xh" "0xt" "t0").1
        = VerifyKycOutcome.denied "No access permission" →
      (initialSimState.verifyKYC "bank1" "user1" "0xh" "0xt" "t0").2 = initialSimState)) ∧
    (initialSimState.verifyKYC "bank1" "user1" "0xh" "0xt" "t0").1
      = VerifyKycOutcome.denied "No access permission" :=
  ⟨verifyHash_no_mutation initialServerState ⟨some "alice", some "0xfeed"⟩ initialSimState
     "bank1" "user1" "0xh" "0xt" "t0" "No access permission",
   rfl⟩

/-! ## Claim C5 (corrected) -/

/-- C5 counterexample: `grantAccess` on a pair with no existing permission
does not fail with NotFound — it completes normally, returns the transaction
hash, and appends an AccessGranted transaction and an access_granted log
entry, contradicting `fails with NotFound` and `does not append a grant
event`. -/
theorem grantAccess_no_permission_counterexample :
    lookupA initialSimState.accessPermissions (permKey "user1" "bank1") = none ∧
    (initialSimState.grantAccess "user1" "bank1" "0xt" "t0").2 = "0xt" ∧
    (initialSimState.grantAccess "user1" "bank1" "0xt" "t0").1.transactionHistory
      = [⟨"AccessGranted", "user1", some "bank1", none, "0xt", none, "t0"⟩] ∧
    (initialSimState.grantAccess "user1" "bank1" "0xt" "t0").1.accessLogs
      = [⟨none, "bank1", "user1", "access_granted", some "0xt", "t0"⟩] :=
  ⟨rfl, rfl, rfl, rfl⟩

/-- C5 amended: GrantAccess on a (subject, requester) pair with no existing
permission creates no permission and approves nothing — the permission store
is exactly unchanged — but it does not fail with NotFound: the simulation
completes normally, returns the transaction hash, and still appends the
AccessGranted transaction and access log entry, while the front-end handler
silently leaves the whole state unchanged. -/
theorem grantAccess_no_permission_behavior (st : SimState) (fst : FrontState)
    (user bank tx now ftx fnow : String)
    (h1 : lookupA st.accessPermissions (permKey user bank) = none)
    (h2 : lookupA fst.accessPermissions (permKey user bank) = none) :
    (st.grantAccess user bank tx now).1.accessPermissions = st.accessPermissions ∧
    (st.grantAccess user bank tx now).1.transactionHistory
      = st.transactionHistory ++ [⟨"AccessGranted", user, some bank, none, tx, none, now⟩] ∧
    (st.grantAccess user bank tx now).1.accessLogs
      = st.accessLogs ++ [⟨none, bank, user, "access_granted", some tx, now⟩] ∧
    (st.grantAccess user bank tx now).2 = tx ∧
    handleAccessControl fst user bank AccessAction.grant ftx fnow = fst := by
  refine ⟨?_, ?_, ?_, ?_, ?_⟩ <;>
    simp [SimState.grantAccess, handleAccessControl, h1, h2]

theorem grantAccess_no_permission_behavior_witness :
    lookupA initialSimState.accessPermissions (permKey "u2" "b2") = none ∧
    lookupA (FrontState.accessPermissions ⟨[], [], []⟩) (permKey "u2" "b2") = none ∧
    ((initialSimState.grantAccess "u2" "b2" "0xg" "t3").1.accessPermissions
        = initialSimState.accessPermissions ∧
    (initialSimState.grantAccess "u2" "b2" "0xg" "t3").1.transactionHistory
      = initialSimState.transactionHistory
        ++ [⟨"AccessGranted", "u2", some "b2", none, "0xg", none, "t3"⟩] ∧
    (initialSimState.grantAccess "u2" "b2" "0xg" "t3").1.accessLogs
      = initialSimState.accessLogs ++ [⟨none, "b2", "u2", "access_granted", some "0xg", "t3"⟩] ∧
    (initialSimState.grantAccess "u2" "b2" "0xg" "t3").2 = "0xg" ∧
    handleAccessControl ⟨[], [], []⟩ "u2" "b2" AccessAction.grant "0xf" "t4" = ⟨[], [], []⟩) :=
  ⟨rfl, rfl,
   grantAccess_no_permission_behavior initialSimState ⟨[], [], []⟩ "u2" "b2" "0xg" "t3"
     "0xf" "t4" rfl rfl⟩

/-! ## Claim C1 (corrected) -/

/-- C1 counterexample: `verified = false` does not hold for every content
differing from the uploaded bytes. SHA-256 maps the 2^264 byte strings of
length 33 into at most 2^256 digests, so two distinct byte contents share a
fingerprint, and verifying the second content's fingerprint against the
first content's upload answers `verified = true`. -/
theorem upload_verifyHash_mutated_counterexample :
    ∃ b b1 : List Nat, (∀ x ∈ b, x < 256) ∧ (∀ x ∈ b1, x < 256) ∧ b ≠ b1 ∧
      (verifyHashHandler
          (uploadHandler initialServerState ⟨some ⟨b, "doc.pdf"⟩, some "alice", some "identity"⟩
            (Except.ok "QmDemo") "t0").2
          ⟨some "alice", some (generateHash b1)⟩).1 = VerifyResult.compared true := by
  obtain ⟨b, b1, hb, hb1, hne, hhash⟩ := sha256_collision
  refine ⟨b, b1, hb, hb1, hne, ?_⟩
  have hfs : strFalsy (some "alice") = false := by decide
  have hgb1 := strFalsy_some_false _ (generateHash_ne_empty b1)
  simp [verifyHashHandler, uploadHandler, uploadToIPFS, hfs, hgb1, strVal,
        lookupA_setA_self, hhash]

/-- C1 amended: Upload(subject, documentType, b) followed by
VerifyHash(subject, fingerprint(b)) returns `verified = true`; supplying the
fingerprint of any other content b1 returns `verified = false` exactly when
the fingerprints differ (for the SHA-256 engine, contents whose digests
collide — which exist — verify as true even though the bytes differ). -/
theorem upload_verifyHash_roundtrip (st : ServerState) (subject dt fn now cid : String)
    (b b1 : List Nat) (hs : subject ≠ "") :
    (verifyHashHandler
        (uploadHandler st ⟨some ⟨b, fn⟩, some subject, some dt⟩ (Except.ok cid) now).2
        ⟨some subject, some (generateHash b)⟩).1 = VerifyResult.compared true ∧
    ((verifyHashHandler
        (uploadHandler st ⟨some ⟨b, fn⟩, some subject, some dt⟩ (Except.ok cid) now).2
        ⟨some subject, some (generateHash b1)⟩).1 = VerifyResult.compared false
      ↔ generateHash b1 ≠ generateHash b) := by
  have hfs := strFalsy_some_false subject hs
  have hgb := strFalsy_some_false _ (generateHash_ne_empty b)
  have hgb1 := strFalsy_some_false _ (generateHash_ne_empty b1)
  constructor
  · simp [verifyHashHandler, uploadHandler, uploadToIPFS, hfs, hs, hgb, strVal,
          lookupA_setA_self]
  · simp only [verifyHashHandler, uploadHandler, uploadToIPFS, hfs, hgb1, strVal,
               Bool.or_self, Bool.false_or, if_false, lookupA_setA_self]
    simp [hs, lookupA_setA_self, VerifyResult.compared.injEq, beq_eq_false_iff_ne,
          ne_comm]

theorem upload_verifyHash_roundtrip_witness :
    ("0xabc" : String) ≠ "" ∧
    ((verifyHashHandler
        (uploadHandler initialServerState ⟨some ⟨[0], "a.pdf"⟩, some "0xabc", some "pan"⟩
          (Except.ok "QmW") "t0").2
        ⟨some "0xabc", some (generateHash [0])⟩).1 = VerifyResult.compared true ∧
    ((verifyHashHandler
        (uploadHandler initialServerState ⟨some ⟨[0], "a.pdf"⟩, some "0xabc", some "pan"⟩
          (Except.ok "QmW") "t0").2
        ⟨some "0xabc", some (generateHash [1])⟩).1 = VerifyResult.compared false
      ↔ generateHash [1] ≠ generateHash [0])) :=
  ⟨by decide,
   upload_verifyHash_roundtrip initialServerState "0xabc" "pan" "a.pdf" "t0" "QmW"
     [0] [1] (by decide)⟩
